import Mathlib

/-!
# A shallow embedding of the `ggda` test-data generation library

The Go package `ggda` fills struct values with synthetic test data using
reflection.  This file embeds the generation engine in Lean:

* Go's `reflect.Kind` taxonomy (restricted to the kinds the engine
  distinguishes) becomes the inductive `Kind`; run-time values become the
  inductive `Value`.  Machine integers are modelled as unbounded `Int`/`Nat`
  (the engine only ever produces the small values `index + 1`), and `float64`
  arithmetic is modelled exactly over `Rat` (the engine only multiplies
  `index+1` by the literal `1.1`).
* A struct type is a list of `Field` descriptors (name, kind, settability);
  a struct value is an association list `Inst` pairing each field name with
  its value, in field order.
* The two override maps of a `Generator` are association lists where the
  most recent insertion shadows older ones, matching Go map overwrite
  semantics under lookup.
* Go run-time panics (from `reflect.Value.Set` on a non-assignable value,
  from `make([]T, count)` with a negative length, and from
  `reflect.Value.Interface` on an unexported field) are modelled as the
  `Except.error` branch of `Except GoErr`, carrying the panic message.
* `time.Now()` is modelled by an explicit clock: `fillStruct` receives the
  reading `now` taken for the instance being filled, and the driving loops
  receive a function `clk : Nat → Nat` giving the reading observed while
  filling instance `i`.  Nothing else about wall-clock time is modelled.
-/

namespace GGDA

/-- The kinds of field the engine distinguishes, following the `switch` in
`autoFill`: all signed integer widths collapse to `kint`, all unsigned widths
to `kuint`, both float widths to `kfloat`.  A struct-kind field carries
whether its type is `time.Time`; every other kind (map, slice, pointer, ...)
is `kother`. -/
inductive Kind where
  | kstring
  | kint
  | kuint
  | kfloat
  | kbool
  | kstruct (isTime : Bool)
  | kother
deriving DecidableEq, Repr

/-- Go run-time values, at the granularity of `Kind`.  `vtime t` is a
`time.Time` holding the clock reading `t`; `vstructZero` is the zero value of
a non-`time.Time` struct type; `votherZero` is the zero value of any other
unrecognized kind. -/
inductive Value where
  | vstr (s : String)
  | vint (n : Int)
  | vuint (n : Nat)
  | vfloat (q : Rat)
  | vbool (b : Bool)
  | vtime (t : Nat)
  | vstructZero
  | votherZero
deriving DecidableEq, Repr

/-- The zero value of each kind (what `var elem T` starts every field at). -/
def Kind.zeroVal : Kind → Value
  | .kstring => .vstr ""
  | .kint => .vint 0
  | .kuint => .vuint 0
  | .kfloat => .vfloat 0
  | .kbool => .vbool false
  | .kstruct true => .vtime 0
  | .kstruct false => .vstructZero
  | .kother => .votherZero

/-- The kind of a run-time value (the `reflect.Kind` of its dynamic type). -/
def Value.kind : Value → Kind
  | .vstr _ => .kstring
  | .vint _ => .kint
  | .vuint _ => .kuint
  | .vfloat _ => .kfloat
  | .vbool _ => .kbool
  | .vtime _ => .kstruct true
  | .vstructZero => .kstruct false
  | .votherZero => .kother

/-- Models `reflect.Value.IsZero`: whether a value equals the zero value of
its own type. -/
def Value.isZero : Value → Bool
  | .vstr s => s = ""
  | .vint n => n = 0
  | .vuint n => n = 0
  | .vfloat q => q = 0
  | .vbool b => b = false
  | .vtime t => t = 0
  | .vstructZero => true
  | .votherZero => true

/-- Replaces the clock reading held by a `time.Time` value with `0`; used to
state clock-independence of every non-timestamp field. -/
def Value.eraseTime : Value → Value
  | .vtime _ => .vtime 0
  | v => v

/-- A display name per kind, standing in for the Go type name that appears in
`reflect` panic messages (type names are collapsed to kind granularity). -/
def kindName : Kind → String
  | .kstring => "string"
  | .kint => "int"
  | .kuint => "uint"
  | .kfloat => "float64"
  | .kbool => "bool"
  | .kstruct true => "time.Time"
  | .kstruct false => "struct"
  | .kother => "interface"

/-- A Go run-time panic, carrying its message. -/
structure GoErr where
  message : String
deriving DecidableEq, Repr

/-- Models `strings.ToLower` on field names (Go identifiers, handled
character-wise; `Char.toLower` lowercases exactly the ASCII uppercase
letters that appear in exported Go field names). -/
def goToLower (s : String) : String :=
  ⟨s.data.map Char.toLower⟩

/-- The panic raised by `make([]T, count)` when `count` is negative. -/
def makesliceErr : GoErr := ⟨"runtime error: makeslice: len out of range"⟩

/-- The panic raised by `reflect.Value.Interface` on an unexported field. -/
def interfaceErr : GoErr :=
  ⟨"reflect.Value.Interface: cannot return value obtained from unexported field or method"⟩

/-- One field descriptor of a struct type, as reflection reports it:
its name, its kind, and whether it is settable (`reflect.Value.CanSet`,
i.e. the field is exported). -/
structure Field where
  name : String
  kind : Kind
  settable : Bool
deriving DecidableEq, Repr

/-- A struct value: each field's name paired with its value, in field order. -/
abbrev Inst := List (String × Value)

/-- Erases every timestamp reading in an instance. -/
def eraseInst (inst : Inst) : Inst :=
  inst.map (fun p => (p.1, p.2.eraseTime))

/-- First-match association-list lookup for the defaults map.  `SetDefaults`
prepends, so the first match is the most recently set entry, matching Go map
overwrite semantics. -/
def lookupVal (n : String) : List (String × Value) → Option Value
  | [] => none
  | (k, v) :: rest => if k = n then some v else lookupVal n rest

/-- First-match association-list lookup for the custom-generator map. -/
def lookupFn (n : String) : List (String × (Nat → Value)) → Option (Nat → Value)
  | [] => none
  | (k, f) :: rest => if k = n then some f else lookupFn n rest

/-- The generator's override state: default values and custom per-index
generator functions, both keyed by field name. -/
structure Generator where
  defaults : List (String × Value)
  customs : List (String × (Nat → Value))

/-- `New[T]()`: a generator with empty override maps. -/
def New : Generator := ⟨[], []⟩

/-- `SetDefaults`: upsert into the defaults map (prepending shadows any older
entry under lookup, as Go map assignment overwrites). -/
def Generator.SetDefaults (g : Generator) (fieldName : String) (value : Value) : Generator :=
  { g with defaults := (fieldName, value) :: g.defaults }

/-- `SetCustom`: upsert into the custom-generator map. -/
def Generator.SetCustom (g : Generator) (fieldName : String) (fn : Nat → Value) : Generator :=
  { g with customs := (fieldName, fn) :: g.customs }

/-- Models `reflect.Value.Set`: succeeds when the dynamic type of `v` is
assignable to the target field's type (at kind granularity), and otherwise
panics with reflect's message, which names the two types but not the field. -/
def goSet (target : Kind) (v : Value) : Except GoErr Value :=
  if v.kind = target then .ok v
  else .error ⟨"reflect.Set: value of type " ++ kindName v.kind ++
      " is not assignable to type " ++ kindName target⟩

/-- `autoFill`: the type-driven value synthesis for a field with no override.
`now` is the `time.Now()` reading taken while filling this instance.  A
non-`time.Time` struct and every unrecognized kind fall through the `switch`
and keep the zero value already in the field. -/
def autoFill (f : Field) (index : Nat) (now : Nat) : Value :=
  match f.kind with
  | .kstring => .vstr (goToLower f.name ++ "_" ++ toString (index + 1))
  | .kint => .vint (index + 1)
  | .kuint => .vuint (index + 1)
  | .kfloat => .vfloat ((index + 1 : Rat) * (1.1 : Rat))
  | .kbool => .vbool (index % 2 == 0)
  | .kstruct true => .vtime now
  | .kstruct false => .vstructZero
  | .kother => .votherZero

/-- The loop body of `fillStruct` for one field: an unsettable field is
skipped (keeping its zero value); otherwise a registered custom generator is
consulted first, then a registered default, and finally `autoFill`. -/
def Generator.resolveField (g : Generator) (f : Field) (index now : Nat) :
    Except GoErr Value :=
  if f.settable = false then .ok f.kind.zeroVal
  else
    match lookupFn f.name g.customs with
    | some fn => goSet f.kind (fn index)
    | none =>
      match lookupVal f.name g.defaults with
      | some dv => goSet f.kind dv
      | none => .ok (autoFill f index now)

/-- `fillStruct`: resolves every field of the struct in declaration order.
A `reflect.Set` panic on any field aborts the whole fill. -/
def Generator.fillStruct (g : Generator) : List Field → Nat → Nat → Except GoErr Inst
  | [], _, _ => .ok []
  | f :: rest, index, now =>
    match g.resolveField f index now with
    | .error e => .error e
    | .ok v =>
      match g.fillStruct rest index now with
      | .error e => .error e
      | .ok vs => .ok ((f.name, v) :: vs)

/-- The `for i := 0; i < count; i++` loop of `Generate`: fills instances at
indices `start, start+1, ...` for `fuel` steps; `clk i` is the clock reading
observed while filling instance `i`. -/
def genLoop (g : Generator) (schema : List Field) (clk : Nat → Nat) :
    Nat → Nat → Except GoErr (List Inst)
  | _, 0 => .ok []
  | start, fuel + 1 =>
    match g.fillStruct schema start (clk start) with
    | .error e => .error e
    | .ok inst =>
      match genLoop g schema clk (start + 1) fuel with
      | .error e => .error e
      | .ok rest => .ok (inst :: rest)

/-- `Generate(count)`: `make([]T, count)` panics when `count` is negative;
otherwise each index `0 .. count-1` is filled independently. -/
def Generator.Generate (g : Generator) (schema : List Field) (count : Int)
    (clk : Nat → Nat) : Except GoErr (List Inst) :=
  if count < 0 then .error makesliceErr
  else genLoop g schema clk 0 count.toNat

/-- `GenerateOne()`: fills a single instance at index `0`; `now` is the
clock reading observed during the call. -/
def Generator.GenerateOne (g : Generator) (schema : List Field) (now : Nat) :
    Except GoErr Inst :=
  g.fillStruct schema 0 now

/-- A Builder modifier, `func(v *T, index int)`: an arbitrary mutation of the
instance, modelled as the function from the instance it receives to the
instance it leaves behind. -/
abbrev Mod := Inst → Nat → Inst

/-- The builder: one generator plus an ordered modifier sequence. -/
structure Builder where
  gen : Generator
  modifiers : List Mod

/-- `Build[T]()`: a builder with a fresh generator and no modifiers. -/
def Build : Builder := ⟨New, []⟩

/-- `With`: appends the modifier to the sequence (accumulates, never
replaces). -/
def Builder.With (b : Builder) (m : Mod) : Builder :=
  { b with modifiers := b.modifiers ++ [m] }

/-- The `WithDefaults` loop over the fields of the prototype, paired with
their values.  A zero-valued field is skipped; a non-zero field's value is
read with `reflect.Value.Interface` — which succeeds for an exported
(settable) field and panics for an unexported one — and stored under the
field's name. -/
def withDefaultsLoop (defs : List (String × Value)) :
    List Field → List Value → Except GoErr (List (String × Value))
  | [], _ => .ok defs
  | _ :: _, [] => .ok defs
  | f :: fs, v :: vs =>
    if v.isZero then withDefaultsLoop defs fs vs
    else if f.settable then withDefaultsLoop ((f.name, v) :: defs) fs vs
    else .error interfaceErr

/-- `WithDefaults(defaults)`: copies every non-zero field of the prototype
into the generator's defaults map.  `proto` lists the prototype's field
values in the schema's field order. -/
def Builder.WithDefaults (b : Builder) (schema : List Field) (proto : List Value) :
    Except GoErr Builder :=
  match withDefaultsLoop b.gen.defaults schema proto with
  | .error e => .error e
  | .ok defs => .ok { b with gen := { b.gen with defaults := defs } }

/-- The `for _, modifier := range b.modifiers` loop: applies the modifiers in
registration order. -/
def applyModifiers : List Mod → Inst → Nat → Inst
  | [], inst, _ => inst
  | m :: ms, inst, index => applyModifiers ms (m inst index) index

/-- `generateSingle`: fill the struct, then apply every modifier in order to
the fully resolved instance. -/
def Builder.generateSingle (b : Builder) (schema : List Field) (index now : Nat) :
    Except GoErr Inst :=
  match b.gen.fillStruct schema index now with
  | .error e => .error e
  | .ok inst => .ok (applyModifiers b.modifiers inst index)

/-- The `Builder.Generate` loop. -/
def buildLoop (b : Builder) (schema : List Field) (clk : Nat → Nat) :
    Nat → Nat → Except GoErr (List Inst)
  | _, 0 => .ok []
  | start, fuel + 1 =>
    match b.generateSingle schema start (clk start) with
    | .error e => .error e
    | .ok inst =>
      match buildLoop b schema clk (start + 1) fuel with
      | .error e => .error e
      | .ok rest => .ok (inst :: rest)

/-- `Builder.Generate(count)`: like `Generator.Generate`, with the modifier
pass per instance; the initial `make([]T, count)` panics on negative count. -/
def Builder.Generate (b : Builder) (schema : List Field) (count : Int)
    (clk : Nat → Nat) : Except GoErr (List Inst) :=
  if count < 0 then .error makesliceErr
  else buildLoop b schema clk 0 count.toNat

/-- `Builder.GenerateOne()`: `generateSingle` at index `0`. -/
def Builder.GenerateOne (b : Builder) (schema : List Field) (now : Nat) :
    Except GoErr Inst :=
  b.generateSingle schema 0 now

/-- A Go type as `GenerateSlice` sees it through `reflect.ValueOf(zero)`:
either a struct type (with its field schema) or any non-struct type (with its
kind; covers the invalid kind of an interface type's nil zero value). -/
inductive GoTy where
  | structTy (schema : List Field)
  | nonStruct (k : Kind)

/-- `generatePrimitive`: the kind-driven value for a non-struct `T`, using
the fixed name `"text"` for strings; any kind outside the `switch` leaves the
zero value. -/
def generatePrimitive (k : Kind) (index : Nat) : Value :=
  match k with
  | .kstring => .vstr ("text_" ++ toString (index + 1))
  | .kint => .vint (index + 1)
  | .kuint => .vuint (index + 1)
  | .kfloat => .vfloat ((index + 1 : Rat) * (1.1 : Rat))
  | .kbool => .vbool (index % 2 == 0)
  | k => k.zeroVal

/-- The result of `GenerateSlice`: a slice of structs or a slice of
primitive values, depending on `T`. -/
inductive SliceResult where
  | structs (l : List Inst)
  | prims (l : List Value)
deriving Repr

/-- `GenerateSlice[T](count)`: for a struct `T`, delegates to a fresh
generator's `Generate`; for a non-struct `T`, builds the slice from
`generatePrimitive`.  Modelled for `count ≥ 0` (the claims' scope); the
initial `make([]T, count)` would panic earlier on negative count. -/
def GenerateSlice (ty : GoTy) (count : Nat) (clk : Nat → Nat) :
    Except GoErr SliceResult :=
  match ty with
  | .structTy schema =>
    match New.Generate schema count clk with
    | .error e => .error e
    | .ok l => .ok (.structs l)
  | .nonStruct k =>
    .ok (.prims ((List.range count).map (fun i => generatePrimitive k i)))

deriving instance DecidableEq for Except

/-- A plain substring test on strings, used to state what a panic message
does and does not mention.  `charsStart sub l` holds when `sub` is an initial
segment of `l`. -/
def charsStart : List Char → List Char → Bool
  | [], _ => true
  | _ :: _, [] => false
  | a :: as, b :: bs => a == b && charsStart as bs

/-- Whether `sub` occurs as a contiguous run inside `l`. -/
def charsHasSub (sub : List Char) : List Char → Bool
  | [] => sub.isEmpty
  | c :: tl => charsStart sub (c :: tl) || charsHasSub sub tl

/-- Whether `sub` occurs as a contiguous substring of `hay`. -/
def strHasSub (hay sub : String) : Bool :=
  charsHasSub sub.data hay.data

/- Unfolding lemmas for the association-list lookups. -/

@[simp] lemma lookupVal_nil (n : String) : lookupVal n [] = none := rfl

@[simp] lemma lookupVal_cons (n k : String) (v : Value) (l : List (String × Value)) :
    lookupVal n ((k, v) :: l) = if k = n then some v else lookupVal n l := rfl

@[simp] lemma lookupFn_nil (n : String) : lookupFn n [] = none := rfl

@[simp] lemma lookupFn_cons (n k : String) (f : Nat → Value)
    (l : List (String × (Nat → Value))) :
    lookupFn n ((k, f) :: l) = if k = n then some f else lookupFn n l := rfl

end GGDA

namespace GGDA

/-- Claim C1: for a settable field, resolution follows the three-tier
precedence with first match winning: a registered custom generator's value
for the current index is used (regardless of any registered default); failing
that, a registered default value is used; failing both, the field is
auto-synthesized from its kind and the index. -/
theorem custom_beats_default_beats_auto (g : Generator) (f : Field)
    (index now : Nat) (fn : Nat → Value) (dv : Value) (hs : f.settable = true) :
    (lookupFn f.name g.customs = some fn → (fn index).kind = f.kind →
      g.resolveField f index now = .ok (fn index)) ∧
    (lookupFn f.name g.customs = none → lookupVal f.name g.defaults = some dv →
      dv.kind = f.kind → g.resolveField f index now = .ok dv) ∧
    (lookupFn f.name g.customs = none → lookupVal f.name g.defaults = none →
      g.resolveField f index now = .ok (autoFill f index now)) := by
  refine ⟨fun h1 h2 => ?_, fun h1 h2 h3 => ?_, fun h1 h2 => ?_⟩ <;>
    simp [Generator.resolveField, hs, h1, h2, goSet]
  · exact h3

/-- A generator with both a custom generator and a default registered for
the field `Age`. -/
def gBoth : Generator :=
  (New.SetCustom "Age" (fun _ => .vint 42)).SetDefaults "Age" (.vint 7)

/-- Witness for C1: on `gBoth`, where both overrides are set for `Age`, the
custom generator's value 42 wins over the default 7. -/
theorem custom_beats_default_beats_auto_witness :
    lookupFn "Age" gBoth.customs = some (fun _ => Value.vint 42) ∧
    lookupVal "Age" gBoth.defaults = some (.vint 7) ∧
    gBoth.resolveField ⟨"Age", .kint, true⟩ 3 0 = .ok (.vint 42) :=
  ⟨rfl, rfl,
    (custom_beats_default_beats_auto gBoth ⟨"Age", .kint, true⟩ 3 0
      (fun _ => .vint 42) (.vint 7) rfl).1 rfl rfl⟩

/-- Claim C2: a settable field with no custom generator and no default is
auto-synthesized from its kind and the index: text yields
`"<lowercased name>_<index+1>"`, signed and unsigned integers yield
`index+1`, floats yield `(index+1)*1.1`, booleans alternate starting `true`
at even indices, and a non-`time.Time` struct or any other unrecognized kind
keeps its zero value, without error. -/
theorem autofill_by_kind (g : Generator) (f : Field) (index now : Nat)
    (hs : f.settable = true)
    (hc : lookupFn f.name g.customs = none)
    (hd : lookupVal f.name g.defaults = none) :
    (f.kind = .kstring → g.resolveField f index now =
      .ok (.vstr (goToLower f.name ++ "_" ++ toString (index + 1)))) ∧
    (f.kind = .kint → g.resolveField f index now = .ok (.vint (index + 1))) ∧
    (f.kind = .kuint → g.resolveField f index now = .ok (.vuint (index + 1))) ∧
    (f.kind = .kfloat → g.resolveField f index now =
      .ok (.vfloat ((index + 1 : Rat) * (1.1 : Rat)))) ∧
    (f.kind = .kbool → g.resolveField f index now = .ok (.vbool (index % 2 == 0))) ∧
    (f.kind = .kstruct false ∨ f.kind = .kother →
      g.resolveField f index now = .ok f.kind.zeroVal) := by
  have hres : g.resolveField f index now = .ok (autoFill f index now) := by
    simp [Generator.resolveField, hs, hc, hd]
  refine ⟨fun hk => ?_, fun hk => ?_, fun hk => ?_, fun hk => ?_, fun hk => ?_,
    fun hk => ?_⟩
  · simp [hres, autoFill, hk]
  · simp [hres, autoFill, hk]
  · simp [hres, autoFill, hk]
  · simp [hres, autoFill, hk]
  · simp [hres, autoFill, hk]
  · rcases hk with hk | hk <;> simp [hres, autoFill, hk, Kind.zeroVal]

/-- A three-field schema exercising integer, text and boolean
auto-synthesis. -/
def demoSchema : List Field :=
  [⟨"Id", .kint, true⟩, ⟨"Name", .kstring, true⟩, ⟨"Ok", .kbool, true⟩]

/-- Witness for C2: a fresh generator auto-fills an integer field at index 4
with 5, and `Generate(5)` on `demoSchema` yields integer fields 1..5, string
fields `"name_1"`..`"name_5"`, and booleans alternating from `true`. -/
theorem autofill_by_kind_witness :
    New.resolveField ⟨"Score", .kint, true⟩ 4 0 = .ok (.vint 5) ∧
    New.Generate demoSchema 5 (fun _ => 0) = .ok
      [[("Id", .vint 1), ("Name", .vstr "name_1"), ("Ok", .vbool true)],
       [("Id", .vint 2), ("Name", .vstr "name_2"), ("Ok", .vbool false)],
       [("Id", .vint 3), ("Name", .vstr "name_3"), ("Ok", .vbool true)],
       [("Id", .vint 4), ("Name", .vstr "name_4"), ("Ok", .vbool false)],
       [("Id", .vint 5), ("Name", .vstr "name_5"), ("Ok", .vbool true)]] :=
  ⟨(autofill_by_kind New ⟨"Score", .kint, true⟩ 4 0 rfl rfl rfl).2.1 rfl,
    by decide⟩

/-- A generator whose custom generator for the integer field `Age` returns a
string, so the assignment panics. -/
def gBad : Generator := New.SetCustom "Age" (fun _ => .vstr "oops")

/-- Counterexample to C8: the failure raised when a custom generator's value
is not assignable is `reflect.Set`'s panic, whose message names the expected
and actual types but does not contain the offending field name `"Age"`. -/
theorem typemismatch_no_fieldname_counterexample :
    gBad.resolveField ⟨"Age", .kint, true⟩ 0 0 =
      .error ⟨"reflect.Set: value of type string is not assignable to type int"⟩ ∧
    strHasSub "reflect.Set: value of type string is not assignable to type int"
      "Age" = false := by
  exact ⟨rfl, by decide⟩

/-- Claim C8 as amended: a value that is not assignable to the field's type
— whether returned by a registered custom generator or registered as a
default — makes the fill fail at the point of assignment, not silently
coerced or swallowed, with `reflect.Set`'s panic naming the actual and
expected types (but not the field name). -/
theorem typemismatch_fails_at_assignment (g : Generator) (f : Field)
    (rest : List Field) (index now : Nat) (fn : Nat → Value) (dv : Value)
    (hs : f.settable = true) :
    (lookupFn f.name g.customs = some fn → (fn index).kind ≠ f.kind →
      g.resolveField f index now = .error ⟨"reflect.Set: value of type " ++
        kindName (fn index).kind ++ " is not assignable to type " ++
        kindName f.kind⟩ ∧
      g.fillStruct (f :: rest) index now =
        .error ⟨"reflect.Set: value of type " ++ kindName (fn index).kind ++
          " is not assignable to type " ++ kindName f.kind⟩) ∧
    (lookupFn f.name g.customs = none → lookupVal f.name g.defaults = some dv →
      dv.kind ≠ f.kind →
      g.resolveField f index now = .error ⟨"reflect.Set: value of type " ++
        kindName dv.kind ++ " is not assignable to type " ++ kindName f.kind⟩ ∧
      g.fillStruct (f :: rest) index now =
        .error ⟨"reflect.Set: value of type " ++ kindName dv.kind ++
          " is not assignable to type " ++ kindName f.kind⟩) := by
  constructor
  · intro hc hk
    have hres : g.resolveField f index now = .error ⟨"reflect.Set: value of type " ++
        kindName (fn index).kind ++ " is not assignable to type " ++
        kindName f.kind⟩ := by
      simp [Generator.resolveField, hs, hc, goSet, hk]
    exact ⟨hres, by rw [Generator.fillStruct, hres]⟩
  · intro hc hd hk
    have hres : g.resolveField f index now = .error ⟨"reflect.Set: value of type " ++
        kindName dv.kind ++ " is not assignable to type " ++
        kindName f.kind⟩ := by
      simp [Generator.resolveField, hs, hc, hd, goSet, hk]
    exact ⟨hres, by rw [Generator.fillStruct, hres]⟩

/-- A generator whose registered default for the integer field `Age` is a
string, so the assignment panics on the default path. -/
def gBadDefault : Generator := New.SetDefaults "Age" (.vstr "oops")

/-- Witness for the amended C8: the whole fill of a two-field struct aborts
with the `reflect.Set` panic, both when the mis-typed value comes from a
custom generator (`gBad`) and when it comes from a default
(`gBadDefault`). -/
theorem typemismatch_fails_at_assignment_witness :
    gBad.fillStruct [⟨"Age", .kint, true⟩, ⟨"Name", .kstring, true⟩] 0 0 =
      .error ⟨"reflect.Set: value of type string is not assignable to type int"⟩ ∧
    gBadDefault.fillStruct [⟨"Age", .kint, true⟩, ⟨"Name", .kstring, true⟩] 0 0 =
      .error ⟨"reflect.Set: value of type string is not assignable to type int"⟩ :=
  ⟨((typemismatch_fails_at_assignment gBad ⟨"Age", .kint, true⟩
      [⟨"Name", .kstring, true⟩] 0 0 (fun _ => .vstr "oops") (.vstr "oops")
      rfl).1 rfl (by decide)).2,
    ((typemismatch_fails_at_assignment gBadDefault ⟨"Age", .kint, true⟩
      [⟨"Name", .kstring, true⟩] 0 0 (fun _ => .vstr "oops") (.vstr "oops")
      rfl).2 rfl rfl (by decide)).2⟩

/-- Counterexample to C9: `Generate(-1)` does not return a defined result
such as an empty sequence; the underlying `make([]T, count)` crashes with a
run-time panic. -/
theorem negative_count_counterexample :
    New.Generate [⟨"Id", .kint, true⟩] (-1) (fun _ => 0) = .error makesliceErr := by
  decide

/-- Claim C9 as amended: for every negative count, `Generate` (on a
Generator or a Builder) crashes with the deterministic `makeslice` run-time
panic rather than returning a sequence. -/
theorem negative_count_crashes (g : Generator) (b : Builder)
    (schema : List Field) (count : Int) (clk : Nat → Nat) (h : count < 0) :
    g.Generate schema count clk = .error makesliceErr ∧
    b.Generate schema count clk = .error makesliceErr := by
  constructor <;> simp [Generator.Generate, Builder.Generate, h]

/-- Witness for the amended C9: `Generate(-2)` on a fresh generator and a
fresh builder crashes with the `makeslice` panic. -/
theorem negative_count_crashes_witness :
    New.Generate [] (-2) (fun _ => 0) = .error makesliceErr ∧
    Build.Generate [] (-2) (fun _ => 0) = .error makesliceErr :=
  negative_count_crashes New Build [] (-2) (fun _ => 0) (by decide)

/-- A field resolves the same way after `SetDefaults` under a key that is
not the name of a settable field. -/
lemma resolveField_setDefaults_other (g : Generator) (f : Field) (key : String)
    (v : Value) (index now : Nat) (h : f.settable = true → f.name ≠ key) :
    (g.SetDefaults key v).resolveField f index now =
      g.resolveField f index now := by
  by_cases hs : f.settable = true
  · have hne : key ≠ f.name := fun he => h hs he.symm
    simp [Generator.resolveField, Generator.SetDefaults, hs, hne]
  · rw [Bool.not_eq_true] at hs
    simp [Generator.resolveField, Generator.SetDefaults, hs]

/-- A field resolves the same way after `SetCustom` under a key that is not
the name of a settable field. -/
lemma resolveField_setCustom_other (g : Generator) (f : Field) (key : String)
    (fn : Nat → Value) (index now : Nat) (h : f.settable = true → f.name ≠ key) :
    (g.SetCustom key fn).resolveField f index now =
      g.resolveField f index now := by
  by_cases hs : f.settable = true
  · have hne : key ≠ f.name := fun he => h hs he.symm
    simp [Generator.resolveField, Generator.SetCustom, hs, hne]
  · rw [Bool.not_eq_true] at hs
    simp [Generator.resolveField, Generator.SetCustom, hs]

/-- `fillStruct` is unchanged by `SetDefaults` under a key naming no
settable field of the schema. -/
lemma fillStruct_setDefaults_other (g : Generator) (schema : List Field)
    (key : String) (v : Value) (index now : Nat)
    (hkey : ∀ f' ∈ schema, f'.settable = true → f'.name ≠ key) :
    (g.SetDefaults key v).fillStruct schema index now =
      g.fillStruct schema index now := by
  induction schema with
  | nil => rfl
  | cons f rest ih =>
    rw [Generator.fillStruct, Generator.fillStruct,
      resolveField_setDefaults_other g f key v index now
        (hkey f (List.mem_cons_self f rest)),
      ih (fun f' hf' => hkey f' (List.mem_cons_of_mem f hf'))]

/-- `fillStruct` is unchanged by `SetCustom` under a key naming no settable
field of the schema. -/
lemma fillStruct_setCustom_other (g : Generator) (schema : List Field)
    (key : String) (fn : Nat → Value) (index now : Nat)
    (hkey : ∀ f' ∈ schema, f'.settable = true → f'.name ≠ key) :
    (g.SetCustom key fn).fillStruct schema index now =
      g.fillStruct schema index now := by
  induction schema with
  | nil => rfl
  | cons f rest ih =>
    rw [Generator.fillStruct, Generator.fillStruct,
      resolveField_setCustom_other g f key fn index now
        (hkey f (List.mem_cons_self f rest)),
      ih (fun f' hf' => hkey f' (List.mem_cons_of_mem f hf'))]

/-- In a successfully filled instance, every unsettable field of the schema
appears with its zero value. -/
lemma fillStruct_unsettable_zero (g : Generator) (schema : List Field)
    (f : Field) (index now : Nat) (inst : Inst)
    (hfill : g.fillStruct schema index now = .ok inst)
    (hf : f ∈ schema) (hs : f.settable = false) :
    (f.name, f.kind.zeroVal) ∈ inst := by
  induction schema generalizing inst with
  | nil => cases hf
  | cons hd tl ih =>
    rw [Generator.fillStruct] at hfill
    cases hres : g.resolveField hd index now with
    | error e => rw [hres] at hfill; cases hfill
    | ok v =>
      rw [hres] at hfill
      cases hrec : g.fillStruct tl index now with
      | error e => rw [hrec] at hfill; cases hfill
      | ok vs =>
        rw [hrec] at hfill
        cases hfill
        rcases List.mem_cons.mp hf with rfl | hf'
        · have hv : v = f.kind.zeroVal := by
            rw [Generator.resolveField, hs] at hres
            simp at hres
            exact hres.symm
          rw [hv]
          exact List.mem_cons_self _ _
        · exact List.mem_cons_of_mem _ (ih vs hrec hf')

/-- Claim C4: in every generated instance an unsettable field holds its zero
value, and override-map entries keyed to a name that is not the name of any
settable field — whether registered as a default or as a custom generator —
are silently inert: they change nothing about the fill and raise no error. -/
theorem unsettable_zero_and_overrides_inert (g : Generator)
    (schema : List Field) (f : Field) (index now : Nat) (key : String)
    (v : Value) (fn : Nat → Value) (inst : Inst)
    (hkey : ∀ f' ∈ schema, f'.settable = true → f'.name ≠ key) :
    (f.settable = false → g.resolveField f index now = .ok f.kind.zeroVal) ∧
    (g.fillStruct schema index now = .ok inst → f ∈ schema →
      f.settable = false → (f.name, f.kind.zeroVal) ∈ inst) ∧
    (g.SetDefaults key v).fillStruct schema index now =
      g.fillStruct schema index now ∧
    (g.SetCustom key fn).fillStruct schema index now =
      g.fillStruct schema index now := by
  refine ⟨fun hs => ?_, fun hfill hf hs => ?_, ?_, ?_⟩
  · simp [Generator.resolveField, hs]
  · exact fillStruct_unsettable_zero g schema f index now inst hfill hf hs
  · exact fillStruct_setDefaults_other g schema key v index now hkey
  · exact fillStruct_setCustom_other g schema key fn index now hkey

/-- A schema with one unexported (unsettable) field and one exported
field. -/
def mixedSchema : List Field :=
  [⟨"count", .kint, false⟩, ⟨"Name", .kstring, true⟩]

/-- Witness for C4: on `mixedSchema`, the unexported field `count` resolves
to zero, appears as zero in the generated instance, and a default registered
under the name `"count"` changes nothing. -/
theorem unsettable_zero_and_overrides_inert_witness :
    New.resolveField ⟨"count", .kint, false⟩ 0 0 = .ok (.vint 0) ∧
    (("count" : String), Value.vint 0) ∈
      [(("count" : String), Value.vint 0), (("Name" : String), Value.vstr "name_1")] ∧
    (New.SetDefaults "count" (.vint 99)).fillStruct mixedSchema 0 0 =
      New.fillStruct mixedSchema 0 0 := by
  have h := unsettable_zero_and_overrides_inert New mixedSchema
    ⟨"count", .kint, false⟩ 0 0 "count" (.vint 99) (fun _ => .vint 99)
    [("count", .vint 0), ("Name", .vstr "name_1")] (by decide)
  exact ⟨h.1 rfl, h.2.1 (by decide) (by decide) rfl, h.2.2.1⟩

/-- Claim C6: `With` accumulates modifiers (never replaces), and a builder's
instance is produced by resolving every field first and then applying the
modifiers in registration order, so with modifiers `[m1, m2]` the returned
instance is `m2` applied to `m1`'s output — `m2`'s result stands for any
field both mutate. -/
theorem modifiers_accumulate_and_apply_in_order (b : Builder) (m1 m2 : Mod)
    (schema : List Field) (index now : Nat) :
    ((b.With m1).With m2).modifiers = b.modifiers ++ [m1, m2] ∧
    ((Build.With m1).With m2).generateSingle schema index now =
      Except.map (fun inst => m2 (m1 inst index) index)
        (New.fillStruct schema index now) := by
  constructor
  · simp [Builder.With]
  · cases h : New.fillStruct schema index now <;>
      simp [Builder.generateSingle, Build, Builder.With, h, applyModifiers,
        Except.map]

/-- Claim C7: `Generate(0)` yields the empty sequence, and `GenerateOne()`
equals the sole element of `Generate(1)` — both resolve one instance at
index 0 from the same overrides — for generators and builders alike. -/
theorem generate_zero_and_one (g : Generator) (b : Builder)
    (schema : List Field) (clk : Nat → Nat) :
    g.Generate schema 0 clk = .ok [] ∧
    g.Generate schema 1 clk =
      Except.map (fun inst => [inst]) (g.GenerateOne schema (clk 0)) ∧
    b.Generate schema 0 clk = .ok [] ∧
    b.Generate schema 1 clk =
      Except.map (fun inst => [inst]) (b.GenerateOne schema (clk 0)) := by
  refine ⟨rfl, ?_, rfl, ?_⟩
  · show genLoop g schema clk 0 1 = _
    rw [genLoop, Generator.GenerateOne]
    cases g.fillStruct schema 0 (clk 0) <;> simp [genLoop, Except.map]
  · show buildLoop b schema clk 0 1 = _
    rw [buildLoop, Builder.GenerateOne]
    cases b.generateSingle schema 0 (clk 0) <;> simp [buildLoop, Except.map]

/-- Resolving one field depends on the clock reading only through the value
a timestamp field receives. -/
lemma resolveField_clock (g : Generator) (f : Field) (index n1 n2 : Nat) :
    Except.map Value.eraseTime (g.resolveField f index n1) =
    Except.map Value.eraseTime (g.resolveField f index n2) := by
  rw [Generator.resolveField, Generator.resolveField]
  by_cases hs : f.settable = false
  · simp [hs]
  · simp only [hs, if_false]
    cases lookupFn f.name g.customs with
    | some fn => rfl
    | none =>
      cases lookupVal f.name g.defaults with
      | some dv => rfl
      | none =>
        simp only [Except.map]
        cases hk : f.kind with
        | kstruct b => cases b <;> simp [autoFill, hk, Value.eraseTime]
        | kstring => simp [autoFill, hk, Value.eraseTime]
        | kint => simp [autoFill, hk, Value.eraseTime]
        | kuint => simp [autoFill, hk, Value.eraseTime]
        | kfloat => simp [autoFill, hk, Value.eraseTime]
        | kbool => simp [autoFill, hk, Value.eraseTime]
        | kother => simp [autoFill, hk, Value.eraseTime]

/-- Filling one instance depends on the clock reading only through the
timestamp fields. -/
lemma fillStruct_clock (g : Generator) (schema : List Field) (index n1 n2 : Nat) :
    Except.map eraseInst (g.fillStruct schema index n1) =
    Except.map eraseInst (g.fillStruct schema index n2) := by
  induction schema with
  | nil => rfl
  | cons f rest ih =>
    have hres := resolveField_clock g f index n1 n2
    rw [Generator.fillStruct, Generator.fillStruct]
    cases h1 : g.resolveField f index n1 <;> cases h2 : g.resolveField f index n2 <;>
      rw [h1, h2] at hres <;>
      simp only [Except.map, Except.error.injEq] at hres ⊢
    · exact hres
    · cases hres
    · cases hres
    · cases hr1 : g.fillStruct rest index n1 <;>
        cases hr2 : g.fillStruct rest index n2 <;>
        rw [hr1, hr2] at ih <;>
        simp only [Except.map, Except.error.injEq] at ih ⊢
      · exact ih
      · cases ih
      · cases ih
      · simp only [Except.ok.injEq] at hres ih ⊢
        simp only [eraseInst] at ih ⊢
        simp [hres, ih]

/-- The generation loop depends on the clock only through timestamp
fields. -/
lemma genLoop_clock (g : Generator) (schema : List Field) (clk1 clk2 : Nat → Nat)
    (fuel start : Nat) :
    Except.map (List.map eraseInst) (genLoop g schema clk1 start fuel) =
    Except.map (List.map eraseInst) (genLoop g schema clk2 start fuel) := by
  induction fuel generalizing start with
  | zero => rfl
  | succ n ih =>
    have hfill := fillStruct_clock g schema start (clk1 start) (clk2 start)
    have hrest := ih (start + 1)
    rw [genLoop, genLoop]
    cases h1 : g.fillStruct schema start (clk1 start) <;>
      cases h2 : g.fillStruct schema start (clk2 start) <;>
      rw [h1, h2] at hfill <;>
      simp only [Except.map, Except.error.injEq] at hfill ⊢
    · exact hfill
    · cases hfill
    · cases hfill
    · cases hr1 : genLoop g schema clk1 (start + 1) n <;>
        cases hr2 : genLoop g schema clk2 (start + 1) n <;>
        rw [hr1, hr2] at hrest <;>
        simp only [Except.map, Except.error.injEq] at hrest ⊢
      · exact hrest
      · cases hrest
      · cases hrest
      · simp only [Except.ok.injEq] at hfill hrest ⊢
        simp [hfill, hrest]

/-- Claim C3: with the override maps fixed, two runs of `Generate(count)` —
differing only in the wall-clock readings they observe — produce
index-for-index identical instances in every non-timestamp field (timestamp
fields, erased here, are exempt because they read the clock). -/
theorem generate_deterministic_modulo_timestamps (g : Generator)
    (schema : List Field) (count : Int) (clk1 clk2 : Nat → Nat) :
    Except.map (List.map eraseInst) (g.Generate schema count clk1) =
    Except.map (List.map eraseInst) (g.Generate schema count clk2) := by
  rw [Generator.Generate, Generator.Generate]
  by_cases h : count < 0
  · simp [h]
  · simp only [h, if_false]
    exact genLoop_clock g schema clk1 clk2 count.toNat 0

/-- Claim C10: `GenerateSlice[T](count)` for a struct `T` returns exactly a
fresh Generator's `Generate(count)` (no overrides); for a non-struct `T` it
returns a length-`count` sequence whose element at index `i` is the
kind-driven value with the fixed name `"text"` for strings: `"text_<i+1>"`,
integers `i+1`, floats `(i+1)*1.1`, booleans `true` iff `i` is even, and the
zero value for any other kind. -/
theorem generateSlice_struct_and_primitive (schema : List Field) (k : Kind)
    (count index : Nat) (clk : Nat → Nat) (b : Bool) :
    GenerateSlice (.structTy schema) count clk =
      Except.map SliceResult.structs (New.Generate schema count clk) ∧
    GenerateSlice (.nonStruct k) count clk =
      .ok (.prims ((List.range count).map (fun i => generatePrimitive k i))) ∧
    ((List.range count).map (fun i => generatePrimitive k i)).length = count ∧
    (k = .kstring → generatePrimitive k index =
      .vstr ("text_" ++ toString (index + 1))) ∧
    (k = .kint → generatePrimitive k index = .vint (index + 1)) ∧
    (k = .kuint → generatePrimitive k index = .vuint (index + 1)) ∧
    (k = .kfloat → generatePrimitive k index =
      .vfloat ((index + 1 : Rat) * (1.1 : Rat))) ∧
    (k = .kbool → generatePrimitive k index = .vbool (index % 2 == 0)) ∧
    ((k = .kstruct b ∨ k = .kother) → generatePrimitive k index = k.zeroVal) := by
  refine ⟨?_, rfl, by simp, fun hk => ?_, fun hk => ?_, fun hk => ?_, fun hk => ?_,
    fun hk => ?_, fun hk => ?_⟩
  · cases h : New.Generate schema (count : Int) clk <;>
      simp [GenerateSlice, h, Except.map]
  · simp [generatePrimitive, hk]
  · simp [generatePrimitive, hk]
  · simp [generatePrimitive, hk]
  · simp [generatePrimitive, hk]
  · simp [generatePrimitive, hk]
  · rcases hk with hk | hk <;> simp [generatePrimitive, hk]

/-- Witness for C10: three primitive strings, and the integer rule at
index 4. -/
theorem generateSlice_struct_and_primitive_witness :
    GenerateSlice (.nonStruct .kstring) 3 (fun _ => 0) =
      .ok (.prims [.vstr "text_1", .vstr "text_2", .vstr "text_3"]) ∧
    generatePrimitive .kint 4 = .vint 5 :=
  ⟨rfl, (generateSlice_struct_and_primitive [] .kint 3 4 (fun _ => 0)
    true).2.2.2.2.1 rfl⟩

/-- The `WithDefaults` loop, when every non-zero prototype field is
exported: it succeeds, leaves names outside the schema untouched, and (for
duplicate-free schemas) binds exactly the non-zero fields. -/
lemma withDefaultsLoop_spec (fs : List Field) :
    ∀ (vs : List Value) (defs : List (String × Value)),
    (∀ p ∈ fs.zip vs, p.2.isZero = false → p.1.settable = true) →
    ∃ defs', withDefaultsLoop defs fs vs = .ok defs' ∧
      (∀ n, (∀ f ∈ fs, f.name ≠ n) → lookupVal n defs' = lookupVal n defs) ∧
      ((fs.map Field.name).Nodup → ∀ p ∈ fs.zip vs,
        lookupVal p.1.name defs' =
          if p.2.isZero then lookupVal p.1.name defs else some p.2) := by
  induction fs with
  | nil =>
    intro vs defs _
    exact ⟨defs, rfl, fun _ _ => rfl, fun _ p hp => by cases hp⟩
  | cons f fs' ih =>
    intro vs defs hsafe
    cases vs with
    | nil =>
      refine ⟨defs, rfl, fun _ _ => rfl, fun _ p hp => ?_⟩
      simp [List.zip] at hp
    | cons v vs' =>
      have hhead : (f, v) ∈ (f :: fs').zip (v :: vs') :=
        List.mem_cons_self _ _
      have htail : ∀ p ∈ fs'.zip vs', p.2.isZero = false → p.1.settable = true :=
        fun p hp => hsafe p (List.mem_cons_of_mem _ hp)
      by_cases hz : v.isZero = true
      · obtain ⟨defs', hloop, hout, hin⟩ := ih vs' defs htail
        refine ⟨defs', ?_, ?_, ?_⟩
        · rw [withDefaultsLoop, hz]
          simp only [if_true]
          exact hloop
        · exact fun n hn =>
            hout n (fun f' hf' => hn f' (List.mem_cons_of_mem _ hf'))
        · intro hnodup p hp
          have hh : (∀ x ∈ fs', x.name ≠ f.name) ∧
              (fs'.map Field.name).Nodup := by simpa using hnodup
          rcases List.mem_cons.mp hp with heq | hp'
          · have hfp : p.1 = f := by rw [heq]
            have hvp : p.2 = v := by rw [heq]
            rw [hfp, hvp, hz, if_pos rfl]
            exact hout f.name (fun f' hf' => hh.1 f' hf')
          · exact hin hh.2 p hp'
      · rw [Bool.not_eq_true] at hz
        have hset : f.settable = true := hsafe (f, v) hhead hz
        obtain ⟨defs', hloop, hout, hin⟩ := ih vs' ((f.name, v) :: defs) htail
        refine ⟨defs', ?_, ?_, ?_⟩
        · rw [withDefaultsLoop, hz, hset]
          simp only [Bool.false_eq_true, if_false, if_true]
          exact hloop
        · intro n hn
          rw [hout n (fun f' hf' => hn f' (List.mem_cons_of_mem _ hf'))]
          have hne : f.name ≠ n := hn f (List.mem_cons_self _ _)
          simp [hne]
        · intro hnodup p hp
          have hh : (∀ x ∈ fs', x.name ≠ f.name) ∧
              (fs'.map Field.name).Nodup := by simpa using hnodup
          rcases List.mem_cons.mp hp with heq | hp'
          · have hfp : p.1 = f := by rw [heq]
            have hvp : p.2 = v := by rw [heq]
            rw [hfp, hvp, hz]
            simp only [Bool.false_eq_true, if_false]
            rw [hout f.name (fun f' hf' => hh.1 f' hf')]
            simp
          · rw [hin hh.2 p hp']
            have hne : f.name ≠ p.1.name :=
              (hh.1 p.1 (List.of_mem_zip hp').1).symm
            by_cases hpz : p.2.isZero = true <;> simp [hpz, hne]

/-- Counterexample to C5: a prototype whose unexported field `age` holds the
non-zero value 7.  The claim expects `age ↦ 7` to be copied into the
defaults map; instead the call crashes, because `reflect.Value.Interface`
panics on an unexported field. -/
theorem withDefaults_unexported_counterexample :
    Build.WithDefaults [⟨"Name", .kstring, true⟩, ⟨"age", .kint, false⟩]
      [.vstr "", .vint 7] = .error interfaceErr := rfl

/-- Claim C5 as amended: for a prototype all of whose non-zero fields are
exported (and a duplicate-free schema), `WithDefaults` succeeds and copies
exactly the non-zero prototype fields into the fresh builder's default map:
a non-zero field is bound to its prototype value, a zero field stays absent,
and a zero settable field is still resolved by auto-synthesis afterwards.
A prototype with a non-zero unexported field instead panics at
`reflect.Value.Interface`. -/
theorem withDefaults_copies_nonzero_exported (schema : List Field)
    (proto : List Value) (index now : Nat)
    (hnodup : (schema.map Field.name).Nodup)
    (hsafe : ∀ p ∈ schema.zip proto, p.2.isZero = false → p.1.settable = true) :
    ∃ b', Build.WithDefaults schema proto = .ok b' ∧
      b'.modifiers = [] ∧ b'.gen.customs = [] ∧
      (∀ p ∈ schema.zip proto,
        lookupVal p.1.name b'.gen.defaults =
          if p.2.isZero then none else some p.2) ∧
      (∀ p ∈ schema.zip proto, p.2.isZero = true → p.1.settable = true →
        b'.gen.resolveField p.1 index now = .ok (autoFill p.1 index now)) := by
  obtain ⟨defs', hloop, hout, hin⟩ := withDefaultsLoop_spec schema proto [] hsafe
  refine ⟨⟨⟨defs', []⟩, []⟩, ?_, rfl, rfl, fun p hp => ?_, fun p hp hz hset => ?_⟩
  · simp only [Builder.WithDefaults, Build, New, hloop]
  · simpa using hin hnodup p hp
  · have hl : lookupVal p.1.name defs' = none := by
      simpa [hz] using hin hnodup p hp
    simp [Generator.resolveField, hset, hl]

/-- The schema of the C5 witness prototype: two exported fields. -/
def protoSchema : List Field :=
  [⟨"Name", .kstring, true⟩, ⟨"Id", .kint, true⟩]

/-- Witness for the amended C5: a prototype with `Name` set to `"bob"` and
`Id` left zero seeds only `Name` as a default; `Id` stays absent and is
still auto-synthesized. -/
theorem withDefaults_copies_nonzero_exported_witness :
    ∃ b', Build.WithDefaults protoSchema [Value.vstr "bob", Value.vint 0] = .ok b' ∧
      b'.modifiers = [] ∧ b'.gen.customs = [] ∧
      (∀ p ∈ protoSchema.zip [Value.vstr "bob", Value.vint 0],
        lookupVal p.1.name b'.gen.defaults =
          if p.2.isZero then none else some p.2) ∧
      (∀ p ∈ protoSchema.zip [Value.vstr "bob", Value.vint 0],
        p.2.isZero = true → p.1.settable = true →
        b'.gen.resolveField p.1 0 0 = .ok (autoFill p.1 0 0)) :=
  withDefaults_copies_nonzero_exported protoSchema [.vstr "bob", .vint 0] 0 0
    (by decide) (by decide)

end GGDA
